import Mathlib

/-!
Shallow embedding of `TRANSCRIBE AND SUMMARIZE_YOUTUBE_VIDEOS03.py`
(class `YouTubeSummarizer`), a single-file pipeline that extracts a
YouTube video identifier from a URL, fetches a transcript, generates a
summary via an external text-generation service and optionally persists
the result as JSON.

External collaborators (the transcript service, the text-generation
service, the file system) are modelled as explicit function parameters;
a `none` result models the Python code path where the call raised and
the wrapping `try/except` logged and returned `None`.

URL parsing follows CPython `urllib.parse.urlparse` / `parse_qs`
restricted to their component-splitting behaviour: WHATWG
control-or-space left-strip, tab/CR/LF removal, scheme detection,
netloc/fragment/query/params splitting, bracket mismatch error, and
blank-value dropping in `parse_qs`.  Percent-decoding of query strings
and the exotic netloc validation passes (NFKC check, bracketed-host
validation) are not modelled; the latter can only raise, which the
caller `extract_video_id` converts to `none` anyway.
-/

/-- Result of `urllib.parse.urlparse`: the six named components. -/
structure ParseResult where
  scheme : String
  netloc : String
  path : String
  params : String
  query : String
  fragment : String
deriving Repr, DecidableEq

/-- Split a character list at the first occurrence of `c`
(Python `str.split(c, 1)` when it returns two pieces); `none` when `c`
does not occur. -/
def breakAtChar (c : Char) : List Char → Option (List Char × List Char)
  | [] => none
  | a :: rest =>
    if a = c then some ([], rest)
    else
      match breakAtChar c rest with
      | none => none
      | some (l, r) => some (a :: l, r)

/-- Python `str.split(c)`: split at every occurrence of `c`, keeping
empty pieces (so the result is always nonempty). -/
def splitOnChar (c : Char) : List Char → List (List Char)
  | [] => [[]]
  | a :: rest =>
    let r := splitOnChar c rest
    if a = c then [] :: r
    else
      match r with
      | [] => [[a]]
      | h :: t => (a :: h) :: t

/-- `urllib.parse.scheme_chars`. -/
def isSchemeChar (c : Char) : Bool :=
  c.isAlpha || c.isDigit || c = '+' || c = '-' || c = '.'

/-- WHATWG C0-control-or-space class stripped from the start of a URL. -/
def whatwgSpaceOrC0 (c : Char) : Bool := c.toNat ≤ 0x20

/-- `urllib.parse._splitnetloc`: the netloc runs up to the first of
`/`, `?` or `#`; the delimiter stays with the remainder. -/
def takeNetloc : List Char → List Char × List Char
  | [] => ([], [])
  | c :: rest =>
    if c = '/' || c = '?' || c = '#' then ([], c :: rest)
    else
      let (n, r) := takeNetloc rest
      (c :: n, r)

/-- Scheme detection step of `urlsplit`: a scheme is recognised when the
first `:` is preceded by a nonempty run of scheme characters starting
with an ASCII letter; the scheme is lower-cased. -/
def splitScheme (url : List Char) : List Char × List Char :=
  match breakAtChar ':' url with
  | none => ([], url)
  | some (before, after) =>
    if (match before with
        | [] => false
        | c :: _ => c.isAlpha) && before.all isSchemeChar
    then (before.map Char.toLower, after)
    else ([], url)

/-- `urllib.parse.urlsplit` without the params step.  Returns `none`
where CPython raises `ValueError` (mismatched square brackets in the
netloc). -/
def urlsplitModel (rawUrl : String) : Option ParseResult :=
  let url0 := (rawUrl.data.dropWhile whatwgSpaceOrC0).filter
    (fun c => !(c = '\t' || c = '\r' || c = '\n'))
  let (scheme, url1) := splitScheme url0
  let (netloc, url2) :=
    match url1 with
    | '/' :: '/' :: rest => takeNetloc rest
    | _ => ([], url1)
  if (netloc.contains '[' && !netloc.contains ']') ||
     (netloc.contains ']' && !netloc.contains '[') then
    none
  else
    let (rest1, fragment) :=
      match breakAtChar '#' url2 with
      | none => (url2, [])
      | some p => p
    let (path, query) :=
      match breakAtChar '?' rest1 with
      | none => (rest1, [])
      | some p => p
    some ⟨String.mk scheme, String.mk netloc, String.mk path, "",
          String.mk query, String.mk fragment⟩

/-- `urllib.parse.uses_params`. -/
def uses_params : List String :=
  ["", "ftp", "hdl", "prospero", "http", "imap", "https", "shttp",
   "rtsp", "rtspu", "sip", "sips", "mms", "sftp", "tel"]

/-- First index `≥ start` holding `c`. -/
def findIdxFrom (c : Char) (l : List Char) (start : Nat) : Option Nat :=
  match (l.drop start).findIdx? (· = c) with
  | none => none
  | some j => some (start + j)

/-- Last index holding `c` (Python `str.rfind`). -/
def rfindIdx (c : Char) (l : List Char) : Option Nat :=
  match l.reverse.findIdx? (· = c) with
  | none => none
  | some j => some (l.length - 1 - j)

/-- `urllib.parse._splitparams`: split the path at the first `;` of its
last segment. -/
def splitparams (url : List Char) : List Char × List Char :=
  match rfindIdx '/' url with
  | some k =>
    match findIdxFrom ';' url k with
    | none => (url, [])
    | some i => (url.take i, url.drop (i + 1))
  | none =>
    match url.findIdx? (· = ';') with
    | none => (url, [])
    | some i => (url.take i, url.drop (i + 1))

/-- `urllib.parse.urlparse`: `urlsplit` plus the params step for schemes
in `uses_params`. -/
def urlparse (rawUrl : String) : Option ParseResult :=
  match urlsplitModel rawUrl with
  | none => none
  | some r =>
    if r.scheme ∈ uses_params && r.path.data.contains ';' then
      let (p, ps) := splitparams r.path.data
      some { r with path := String.mk p, params := String.mk ps }
    else
      some r

/-- One query pair as produced by `urllib.parse.parse_qsl` with default
arguments: pairs without `=` and pairs with a blank value are dropped;
`+` decodes to a space.  (Percent-decoding is not modelled.) -/
def parse_qs_pair (nv : List Char) : Option (String × String) :=
  if nv = [] then none
  else
    match breakAtChar '=' nv with
    | none => none
    | some (name, value) =>
      if value = [] then none
      else
        some (String.mk (name.map (fun c => if c = '+' then ' ' else c)),
              String.mk (value.map (fun c => if c = '+' then ' ' else c)))

/-- `urllib.parse.parse_qs` flattened to the ordered pair list; the
first pair with a given key carries the value `parse_qs(q)[k][0]`
returns. -/
def parse_qs (query : String) : List (String × String) :=
  (splitOnChar '&' query.data).filterMap parse_qs_pair

/-- Python `pat in s` substring test (for nonempty `pat`). -/
def containsSub (pat : List Char) : List Char → Bool
  | [] => pat.isEmpty
  | c :: rest => pat.isPrefixOf (c :: rest) || containsSub pat rest

/-- Suffix after the end of the first left-to-right occurrence of `pat`,
`none` when `pat` does not occur. -/
def firstSplitTail (pat : List Char) : List Char → Option (List Char)
  | [] => none
  | c :: rest =>
    if pat.isPrefixOf (c :: rest) then some ((c :: rest).drop pat.length)
    else firstSplitTail pat rest

theorem firstSplitTail_length_lt (pat : List Char) (hp : pat ≠ []) :
    ∀ s rest, firstSplitTail pat s = some rest → rest.length < s.length := by
  intro s
  induction s with
  | nil => intro rest h; simp [firstSplitTail] at h
  | cons c cs ih =>
    intro rest h
    rw [firstSplitTail] at h
    by_cases hpre : pat.isPrefixOf (c :: cs) = true
    · simp [hpre] at h
      subst h
      simp only [List.length_drop, List.length_cons]
      have hple : 1 ≤ pat.length := by
        cases pat with
        | nil => exact absurd rfl hp
        | cons p ps => simp
      omega
    · simp [hpre] at h
      exact Nat.lt_trans (ih rest h) (Nat.lt_succ_self _)

/-- Fuel-driven iteration for `lastPiece`; by
`firstSplitTail_length_lt`, fuel `s.length` is enough for any nonempty
pattern, so the fuel never runs out on the calls made below. -/
def lastPieceAux (pat : List Char) : Nat → List Char → List Char
  | 0, s => s
  | fuel + 1, s =>
    match firstSplitTail pat s with
    | none => s
    | some rest => lastPieceAux pat fuel rest

/-- `s.split(pat)[-1]` for nonempty `pat`: iterate left-to-right
non-overlapping matches and return the piece after the last one. -/
def lastPiece (pat : List Char) (s : List Char) : List Char :=
  lastPieceAux pat s.length s

/-- `YouTubeSummarizer.extract_video_id`: `none` models Python `None`
(both the explicit `return None` and the `except` path). -/
def extract_video_id (url : String) : Option String :=
  match urlparse url with
  | none => none
  | some p =>
    if p.netloc = "youtu.be" then some (p.path.drop 1)
    else if p.netloc = "youtube.com" || p.netloc = "www.youtube.com" then
      if p.path = "/watch" then
        match (parse_qs p.query).find? (fun kv => kv.1 = "v") with
        | some kv => some kv.2
        | none => none
      else if containsSub ("/embed/".data) p.path.data then
        some (String.mk (lastPiece ("/embed/".data) p.path.data))
      else if containsSub ("/v/".data) p.path.data then
        some (String.mk (lastPiece ("/v/".data) p.path.data))
      else none
    else none


/-- Text of the f-string in `create_summary_prompt` before the
`transcript` interpolation point. -/
def template_head : String :=
  "
        Generate a detailed and structured analysis of the following transcript, focusing on breaking down each section in-depth, explaining technical concepts, connecting ideas, and providing recommendations for further learning at the end.

        1. **Main Title and Context**:
          - **Catchy Title**: Create a title that concisely and attractively captures the essence of the content. The title should be relevant to the topic and catch the reader\x27s attention.
          - **Brief Context**: Provide a brief explanation of the general context of the topic discussed in the transcript. Be sure to include the main purpose of the content, the area of focus, and the significance of the topic. Why is it relevant now, and who might benefit from this information?

        2. **Key Points**:
          - **Main Ideas and Concepts**: Identify and list the most important points discussed in the transcript. Explain each concept in detail, highlighting the most relevant ones and how they contribute to the overall message of the content.
          - **Technical Explanations**: Break down any technical terms or specialized concepts. Provide clear, understandable definitions followed by concrete examples that illustrate how these terms are applied in real situations. If abstract concepts are mentioned, provide an analogy or simplified explanation.
          - **Relevant Examples**: Describe the examples provided in the content. Be sure to explain how these examples illustrate the key points, and how they can be applied in different practical contexts. If no explicit examples are provided, create your own that reflect the concepts discussed.

        3. **Structure and Development**:
          - **Logical Progression of Ideas**: Explain how the content develops logically. How are ideas introduced and connected? How do the ideas evolve as the transcript progresses? Detail how the author builds their argument.
          - **Connection Between Concepts**: Point out how different concepts are interconnected throughout the content. How do the key points, technical explanations, and examples link together? How do they support each other to build a deeper understanding of the topic?
          - **Arguments and Evidence**: Summarize the main arguments presented. Explain how each one is supported by evidence, whether through data, facts, examples, or quotes. Detail the validity of the evidence presented and how it strengthens the argument.

        4. **Conclusions and Applications**:
          - **Main Ideas**: Highlight the most important conclusions without merely summarizing them. Explain why these conclusions are crucial for understanding the topic and how they contribute to the general understanding.
          - **Practical Implications**: Discuss the practical implications of the concepts discussed. How can these concepts or ideas be applied in the real world? Provide examples of industries, professions, or fields where this information might be useful and how it would change practices in those contexts.
          - **Recommendations or Next Steps**: Based on the conclusions, suggest possible next steps or recommendations for the reader. What should the reader do with this information? How can they implement what they\x27ve learned in their professional or personal life? If relevant, suggest areas for further research or exploration.

        5. **Recommendations for Further Learning**:
          - **Areas to Dive Deeper**: Based on the concepts discussed, provide key areas to explore further. For example, if data analysis techniques are mentioned, suggest which algorithms or methods to study. If a technical concept is discussed, what other approaches or related theories could be explored?
          - **Resources for Study**: Provide links to additional resources, such as books, online courses, academic papers, or specific tools. If the content deals with a technical topic like programming or data science, suggest learning platforms, practical tutorials, or software that could help master these concepts.
          - **Study Tips and Best Practices**: Offer advice on how to approach learning the key concepts discussed in the transcript. This may include study strategies, best practices for applying the content, or warnings about common mistakes beginners often make in that field.

        Transcript:
        "

/-- Text of the f-string after the `transcript` interpolation point. -/
def template_tail : String :=
  "
        "

/-- `create_summary_prompt`: the f-string embeds the transcript verbatim
between the two template halves. -/
def create_summary_prompt (transcript : String) : String :=
  template_head ++ transcript ++ template_tail

/-- Dataclass `VideoSummary`. -/
structure VideoSummary where
  video_id : String
  title : Option String
  transcript : Option String
  summary : Option String
  error : Option String
deriving Repr, DecidableEq

/-- One `{text, start, duration}` segment returned by the transcript
service; the timing representation is left abstract in `τ`. -/
structure TranscriptSegment (τ : Type) where
  text : String
  start : τ
  duration : τ
deriving Repr, DecidableEq

/-- `' '.join(segment['text'] for segment in transcript)`. -/
def combine_transcript {τ : Type} (segs : List (TranscriptSegment τ)) : String :=
  String.intercalate " " (segs.map (fun g => g.text))

/-- `YouTubeSummarizer.get_transcript`.  `fetch` models
`YouTubeTranscriptApi.get_transcript`; a `none` result models the
`except` path (any fetch failure, logged and collapsed to `None`).
`languages = none` models the Python default argument `None`, replaced
by `['es', 'en']`. -/
def get_transcript {τ : Type}
    (fetch : String → List String → Option (List (TranscriptSegment τ)))
    (video_id : String) (languages : Option (List String)) : Option String :=
  let langs :=
    match languages with
    | none => ["es", "en"]
    | some ls => ls
  match fetch video_id langs with
  | none => none
  | some segs => some (combine_transcript segs)

/-- Python falsiness of an `Optional[str]`: `None` and `""` are falsy. -/
def truthy : Option String → Bool
  | none => false
  | some s => s != ""

/-- How many times each external effect ran during `process_video`:
transcript fetches, generation calls, `_save_summary` invocations. -/
structure CallTrace where
  transcriptCalls : Nat
  generationCalls : Nat
  saveCalls : Nat
deriving Repr, DecidableEq

/-- `YouTubeSummarizer.process_video`, instrumented with a `CallTrace`.
`generate` models `get_gemini_response` (already `none` on any service
failure).  Mirrors the source's control flow: the guards are Python
`if not x` tests, so an empty-string identifier or transcript or
summary takes the same failure branch as `None`. -/
def process_video {τ : Type}
    (fetch : String → List String → Option (List (TranscriptSegment τ)))
    (generate : String → Option String)
    (url : String) (save_to_file : Bool) : VideoSummary × CallTrace :=
  let video_id := extract_video_id url
  if truthy video_id = false then
    ({ video_id := "", title := none, transcript := none, summary := none,
       error := some "Invalid YouTube URL" },
     { transcriptCalls := 0, generationCalls := 0, saveCalls := 0 })
  else
    let vid := video_id.getD ""
    let transcript := get_transcript fetch vid none
    if truthy transcript = false then
      ({ video_id := vid, title := none, transcript := none, summary := none,
         error := some "Failed to fetch transcript" },
       { transcriptCalls := 1, generationCalls := 0, saveCalls := 0 })
    else
      let t := transcript.getD ""
      let prompt := create_summary_prompt t
      let summary_text := generate prompt
      if truthy summary_text = false then
        ({ video_id := vid, title := none, transcript := some t, summary := none,
           error := some "Failed to generate summary" },
         { transcriptCalls := 1, generationCalls := 1, saveCalls := 0 })
      else
        ({ video_id := vid, title := none, transcript := some t,
           summary := summary_text, error := none },
         { transcriptCalls := 1, generationCalls := 1,
           saveCalls := if save_to_file then 1 else 0 })

/-- Output path built in `_save_summary`:
`Path("summaries") / f"summary_{video_id}.json"`. -/
def save_path (s : VideoSummary) : String :=
  "summaries/summary_" ++ s.video_id ++ ".json"

/-- The `summary_dict` literal of `_save_summary`: exactly these four
keys, in this order; `title` is not persisted. -/
def summary_dict (s : VideoSummary) : List (String × Option String) :=
  [("video_id", some s.video_id), ("transcript", s.transcript),
   ("summary", s.summary), ("error", s.error)]

/-- Per-character escaping of `json.dump` with `ensure_ascii=False`:
only the quote, backslash and C0 control characters are escaped; every
other character — all non-ASCII in particular — passes through
literally. -/
def json_escape_char (c : Char) : String :=
  if c = '"' then "\\\""
  else if c = '\\' then "\\\\"
  else if c = '\n' then "\\n"
  else if c = '\r' then "\\r"
  else if c = '\t' then "\\t"
  else if c = '\x08' then "\\b"
  else if c = '\x0c' then "\\f"
  else if c.toNat < 0x20 then
    "\\u00" ++ String.mk [(Nat.digitChar (c.toNat / 16)), (Nat.digitChar (c.toNat % 16))]
  else String.singleton c

/-- JSON string literal under `ensure_ascii=False`. -/
def json_string (s : String) : String :=
  "\"" ++ String.join (s.data.map json_escape_char) ++ "\""

/-- JSON rendering of an optional string field (`null` for `None`). -/
def json_value : Option String → String
  | none => "null"
  | some s => json_string s

/-- `json.dump(obj, f, ensure_ascii=False, indent=2)` for a flat
string-keyed object of optional strings. -/
def render_json_obj (items : List (String × Option String)) : String :=
  match items with
  | [] => "\x7b\x7d"
  | _ =>
    "\x7b\n  " ++
    String.intercalate ",\n  "
      (items.map (fun it => json_string it.1 ++ ": " ++ json_value it.2)) ++
    "\n\x7d"

/-- The document `_save_summary` writes for a record. -/
def render_summary_json (s : VideoSummary) : String :=
  render_json_obj (summary_dict s)

/-- File-system state: contents by path. -/
def FileSystem : Type := String → Option String

/-- Effect of `_save_summary` on the file system: `open(output_file,
'w')` truncates, so the write replaces any previous content at the
path. -/
def save_summary (fs : FileSystem) (s : VideoSummary) : FileSystem :=
  fun p => if p = save_path s then some (render_summary_json s) else fs p

/-- Separator-prefixed join, the loop invariant shape of
`String.intercalate.go`. -/
def sepJoin (sep : String) : List String → String
  | [] => ""
  | a :: as => sep ++ a ++ sepJoin sep as

theorem intercalate_go_eq (sep : String) :
    ∀ (l : List String) (acc : String),
      String.intercalate.go acc sep l = acc ++ sepJoin sep l := by
  intro l
  induction l with
  | nil =>
    intro acc
    simp [String.intercalate.go, sepJoin, String.append_empty]
  | cons a as ih =>
    intro acc
    rw [String.intercalate.go, ih, sepJoin]
    rw [String.append_assoc, String.append_assoc, String.append_assoc]

theorem intercalate_eq_sepJoin (sep : String) (a : String) (l : List String) :
    String.intercalate sep (a :: l) = a ++ sepJoin sep l := by
  rw [String.intercalate, intercalate_go_eq]

theorem intercalate_cons_cons (sep a b : String) (l : List String) :
    String.intercalate sep (a :: b :: l)
      = a ++ sep ++ String.intercalate sep (b :: l) := by
  rw [intercalate_eq_sepJoin, intercalate_eq_sepJoin, sepJoin]
  rw [String.append_assoc, String.append_assoc]

theorem truthy_ne_none {o : Option String} (h : truthy o = true) : o ≠ none := by
  cases o with
  | none => simp [truthy] at h
  | some s => simp

/-- C1: processing short-circuits on the first failing stage.  When
identifier extraction yields no identifier, neither the transcript
fetch nor the generation call runs and the record's error is the
invalid-URL message; when the transcript fetch yields nothing, the
generation call does not run and the error is the
transcript-unavailable message. -/
theorem C1_short_circuit {τ : Type}
    (fetch : String → List String → Option (List (TranscriptSegment τ)))
    (generate : String → Option String)
    (url : String) (save : Bool) :
    (extract_video_id url = none →
      process_video fetch generate url save =
        ({ video_id := "", title := none, transcript := none, summary := none,
           error := some "Invalid YouTube URL" },
         { transcriptCalls := 0, generationCalls := 0, saveCalls := 0 }))
    ∧ (∀ vid, extract_video_id url = some vid → vid ≠ "" →
        fetch vid ["es", "en"] = none →
        process_video fetch generate url save =
          ({ video_id := vid, title := none, transcript := none, summary := none,
             error := some "Failed to fetch transcript" },
           { transcriptCalls := 1, generationCalls := 0, saveCalls := 0 })) := by
  constructor
  · intro h
    unfold process_video
    rw [h]
    simp [truthy]
  · intro vid h hne hf
    unfold process_video
    rw [h]
    simp [truthy, hne, get_transcript, hf]

theorem C1_short_circuit_witness :
    process_video (fun _ _ => (none : Option (List (TranscriptSegment Nat))))
        (fun _ => none) "https://example.com/abc123" true =
      ({ video_id := "", title := none, transcript := none, summary := none,
         error := some "Invalid YouTube URL" },
       { transcriptCalls := 0, generationCalls := 0, saveCalls := 0 })
    ∧ process_video (fun _ _ => (none : Option (List (TranscriptSegment Nat))))
        (fun _ => none) "https://youtu.be/abc" true =
      ({ video_id := "abc", title := none, transcript := none, summary := none,
         error := some "Failed to fetch transcript" },
       { transcriptCalls := 1, generationCalls := 0, saveCalls := 0 }) :=
  ⟨(C1_short_circuit _ _ _ _).1 (by decide),
   (C1_short_circuit _ _ _ _).2 "abc" (by decide) (by decide) rfl⟩

/-- C2 counterexample: a run whose generation call fails returns a
record with a non-null error AND a populated transcript, so a `Failed`
record is not free of populated stage outputs as the claim states. -/
theorem C2_counterexample :
    (process_video (fun _ _ => some [(⟨"t", 0, 0⟩ : TranscriptSegment Nat)])
        (fun _ => none) "https://youtu.be/abc" false).1.error ≠ none
    ∧ (process_video (fun _ _ => some [(⟨"t", 0, 0⟩ : TranscriptSegment Nat)])
        (fun _ => none) "https://youtu.be/abc" false).1.transcript ≠ none := by
  decide

/-- C2 amended: every record is in exactly one of two terminal states —
error is null exactly when both transcript and summary are non-null
(Success); a Failed record always has a null summary, though it may
carry a populated transcript when the failure happened at the
generation stage. -/
theorem C2_amended {τ : Type}
    (fetch : String → List String → Option (List (TranscriptSegment τ)))
    (generate : String → Option String)
    (url : String) (save : Bool) :
    ((process_video fetch generate url save).1.error = none ↔
      ((process_video fetch generate url save).1.transcript ≠ none ∧
       (process_video fetch generate url save).1.summary ≠ none))
    ∧ ((process_video fetch generate url save).1.error ≠ none →
        (process_video fetch generate url save).1.summary = none) := by
  unfold process_video
  dsimp only
  split
  · simp
  · split
    · simp
    · split
      · simp
      · rename_i h1 h2 h3
        simp only [Bool.not_eq_false] at h3
        constructor
        · simp [truthy_ne_none h3]
        · intro h
          simp at h

theorem C2_amended_witness :
    (process_video (fun _ _ => (none : Option (List (TranscriptSegment Nat))))
        (fun _ => none) "https://youtu.be/abc" false).1.summary = none :=
  (C2_amended _ _ _ _).2 (by decide)

/-- C3: extraction returns the expected identifier for the supported
URL shapes (short-link host; canonical host with /watch?v=, /embed/ or
/v/ paths) and no identifier for any other host or shape: a parse
failure, an unrecognised host, a canonical-host path that is none of
the three patterns, or a /watch query without a `v` entry. -/
theorem C3_extraction_shapes :
    extract_video_id "https://youtu.be/abc123" = some "abc123"
    ∧ extract_video_id "https://www.youtube.com/watch?v=abc123&t=5" = some "abc123"
    ∧ extract_video_id "https://youtube.com/watch?v=abc123" = some "abc123"
    ∧ extract_video_id "https://www.youtube.com/embed/abc123" = some "abc123"
    ∧ extract_video_id "https://www.youtube.com/v/abc123" = some "abc123"
    ∧ extract_video_id "https://example.com/abc123" = none
    ∧ (∀ url, urlparse url = none → extract_video_id url = none)
    ∧ (∀ url r, urlparse url = some r →
        r.netloc ≠ "youtu.be" → r.netloc ≠ "youtube.com" →
        r.netloc ≠ "www.youtube.com" → extract_video_id url = none)
    ∧ (∀ url r, urlparse url = some r →
        (r.netloc = "youtube.com" ∨ r.netloc = "www.youtube.com") →
        r.path ≠ "/watch" →
        containsSub ("/embed/".data) r.path.data = false →
        containsSub ("/v/".data) r.path.data = false →
        extract_video_id url = none)
    ∧ (∀ url r, urlparse url = some r →
        (r.netloc = "youtube.com" ∨ r.netloc = "www.youtube.com") →
        r.path = "/watch" →
        (parse_qs r.query).find? (fun kv => kv.1 = "v") = none →
        extract_video_id url = none) := by
  refine ⟨by decide, by decide, by decide, by decide, by decide, by decide,
    ?_, ?_, ?_, ?_⟩
  · intro url h
    unfold extract_video_id
    rw [h]
  · intro url r h h1 h2 h3
    unfold extract_video_id
    rw [h]
    simp [h1, h2, h3]
  · intro url r h hc hw he hv
    unfold extract_video_id
    rw [h]
    rcases hc with hc | hc <;> simp [hc, hw, he, hv]
  · intro url r h hc hw hv
    unfold extract_video_id
    rw [h]
    rcases hc with hc | hc <;> simp [hc, hw, hv]

theorem C3_extraction_shapes_witness :
    extract_video_id "https://m.youtube.com/watch?v=abc" = none :=
  C3_extraction_shapes.2.2.2.2.2.2.2.1 "https://m.youtube.com/watch?v=abc"
    ⟨"https", "m.youtube.com", "/watch", "", "v=abc", ""⟩
    (by decide) (by decide) (by decide) (by decide)

/-- C4 counterexample: for the short-link URL youtu.be/a/b the code
returns the whole path with the leading slash removed (`a/b`), not the
first path segment (`a`) the claim predicts. -/
theorem C4_counterexample :
    extract_video_id "https://youtu.be/a/b" = some "a/b"
    ∧ (some "a/b" : Option String) ≠ some "a" := by
  decide

/-- C4 amended: for every short-link-host URL the identifier is the
URL path with its leading slash removed (so youtu.be/a/b yields a/b,
not the first segment a); for canonical-host URLs whose path contains
/embed/ (resp. contains /v/ but not /embed/), the identifier is the
last piece of splitting the path on /embed/ (resp. /v/), i.e. the
suffix after the final non-overlapping occurrence. -/
theorem C4_amended :
    (∀ url r, urlparse url = some r → r.netloc = "youtu.be" →
      extract_video_id url = some (r.path.drop 1))
    ∧ (∀ url r, urlparse url = some r →
        (r.netloc = "youtube.com" ∨ r.netloc = "www.youtube.com") →
        containsSub ("/embed/".data) r.path.data = true →
        extract_video_id url
          = some (String.mk (lastPiece ("/embed/".data) r.path.data)))
    ∧ (∀ url r, urlparse url = some r →
        (r.netloc = "youtube.com" ∨ r.netloc = "www.youtube.com") →
        containsSub ("/embed/".data) r.path.data = false →
        containsSub ("/v/".data) r.path.data = true →
        extract_video_id url
          = some (String.mk (lastPiece ("/v/".data) r.path.data)))
    ∧ extract_video_id "https://youtu.be/a/b" = some "a/b" := by
  refine ⟨?_, ?_, ?_, by decide⟩
  · intro url r h hb
    unfold extract_video_id
    rw [h]
    simp [hb]
  · intro url r h hc he
    have hw : r.path ≠ "/watch" := by
      intro hp
      rw [hp] at he
      exact absurd he (by decide)
    unfold extract_video_id
    rw [h]
    rcases hc with hc | hc <;> simp [hc, hw, he]
  · intro url r h hc he hv
    have hw : r.path ≠ "/watch" := by
      intro hp
      rw [hp] at hv
      exact absurd hv (by decide)
    unfold extract_video_id
    rw [h]
    rcases hc with hc | hc <;> simp [hc, hw, he, hv]

theorem C4_amended_witness :
    extract_video_id "https://youtu.be/a/b" = some ("/a/b".drop 1) :=
  C4_amended.1 "https://youtu.be/a/b" ⟨"https", "youtu.be", "/a/b", "", "", ""⟩
    (by decide) (by decide)

/-- C5: the combined transcript is the segment texts joined with a
single space in the original order; timing data is discarded (the
result is invariant under any change of the timing fields); the
two-segment Hello/world example combines to "Hello world"; and
`get_transcript` returns exactly this combination of what the service
returned. -/
theorem C5_transcript_combination :
    combine_transcript ([] : List (TranscriptSegment Nat)) = ""
    ∧ (∀ (τ : Type) (a : TranscriptSegment τ), combine_transcript [a] = a.text)
    ∧ (∀ (τ : Type) (a : TranscriptSegment τ) (rest : List (TranscriptSegment τ)),
        rest ≠ [] → combine_transcript (a :: rest)
          = a.text ++ " " ++ combine_transcript rest)
    ∧ (∀ (τ τ₂ : Type) (f : τ → τ₂) (segs : List (TranscriptSegment τ)),
        combine_transcript (segs.map (fun g => ⟨g.text, f g.start, f g.duration⟩))
          = combine_transcript segs)
    ∧ combine_transcript [(⟨"Hello", 1, 2⟩ : TranscriptSegment Nat), ⟨"world", 3, 4⟩]
        = "Hello world"
    ∧ (∀ (τ : Type) (fetch : String → List String → Option (List (TranscriptSegment τ)))
        (vid : String) (segs : List (TranscriptSegment τ)),
        fetch vid ["es", "en"] = some segs →
        get_transcript fetch vid none = some (combine_transcript segs)) := by
  refine ⟨rfl, fun τ a => rfl, ?_, ?_, by decide, ?_⟩
  · intro τ a rest hne
    cases rest with
    | nil => exact absurd rfl hne
    | cons b bs =>
      unfold combine_transcript
      simp only [List.map_cons]
      rw [intercalate_cons_cons]
  · intro τ τ₂ f segs
    unfold combine_transcript
    rw [List.map_map]
    rfl
  · intro τ fetch vid segs h
    simp [get_transcript, h]

theorem C5_transcript_combination_witness :
    combine_transcript [(⟨"Hello", 1, 2⟩ : TranscriptSegment Nat), ⟨"world", 3, 4⟩]
      = (⟨"Hello", 1, 2⟩ : TranscriptSegment Nat).text ++ " "
        ++ combine_transcript [(⟨"world", 3, 4⟩ : TranscriptSegment Nat)]
    ∧ get_transcript
        (fun _ _ => some [(⟨"Hello", 1, 2⟩ : TranscriptSegment Nat), ⟨"world", 3, 4⟩])
        "abc" none
      = some (combine_transcript
          [(⟨"Hello", 1, 2⟩ : TranscriptSegment Nat), ⟨"world", 3, 4⟩]) :=
  ⟨C5_transcript_combination.2.2.1 Nat ⟨"Hello", 1, 2⟩ [⟨"world", 3, 4⟩] (by decide),
   C5_transcript_combination.2.2.2.2.2 Nat _ "abc" _ rfl⟩

/-- C6: the prompt is the fixed template head, then the transcript
verbatim, then the template tail, so for every transcript string —
empty, unicode or template-special characters included — the transcript
occurs unmodified as a contiguous substring of the prompt. -/
theorem C6_prompt_contains_transcript (t : String) :
    (create_summary_prompt t).data
      = template_head.data ++ t.data ++ template_tail.data
    ∧ t.data <:+: (create_summary_prompt t).data := by
  have h1 : (create_summary_prompt t).data
      = template_head.data ++ t.data ++ template_tail.data := by
    rw [create_summary_prompt, String.data_append, String.data_append]
  refine ⟨h1, template_head.data, template_tail.data, ?_⟩
  rw [h1]

/-- C7: the persisted record goes to `summaries/summary_<videoId>.json`
and contains exactly the four fields video_id, transcript, summary and
error (in particular no title field); characters outside ASCII are
never escaped, and the document is the indent-2 pretty-printed JSON
object shown on a concrete record with a non-ASCII transcript. -/
theorem C7_persisted_record (s : VideoSummary) :
    save_path s = "summaries/summary_" ++ s.video_id ++ ".json"
    ∧ (summary_dict s).map Prod.fst = ["video_id", "transcript", "summary", "error"]
    ∧ "title" ∉ (summary_dict s).map Prod.fst
    ∧ (∀ c : Char, 128 ≤ c.toNat → json_escape_char c = String.singleton c)
    ∧ render_summary_json
        { video_id := "vid1", title := some "T", transcript := some "niño",
          summary := none, error := none }
        = "\x7b\n  \"video_id\": \"vid1\",\n  \"transcript\": \"niño\",\n  \"summary\": null,\n  \"error\": null\n\x7d" := by
  refine ⟨rfl, rfl, by simp [summary_dict], ?_, by decide⟩
  intro c hc
  have h1 : c ≠ '"' := fun h => absurd hc (by subst h; decide)
  have h2 : c ≠ '\\' := fun h => absurd hc (by subst h; decide)
  have h3 : c ≠ '\n' := fun h => absurd hc (by subst h; decide)
  have h4 : c ≠ '\r' := fun h => absurd hc (by subst h; decide)
  have h5 : c ≠ '\t' := fun h => absurd hc (by subst h; decide)
  have h6 : c ≠ '\x08' := fun h => absurd hc (by subst h; decide)
  have h7 : c ≠ '\x0c' := fun h => absurd hc (by subst h; decide)
  have h8 : ¬ c.toNat < 0x20 := by omega
  simp [json_escape_char, h1, h2, h3, h4, h5, h6, h7, h8]

theorem C7_persisted_record_witness :
    json_escape_char 'ñ' = String.singleton 'ñ'
    ∧ (summary_dict ⟨"v", none, none, none, none⟩).map Prod.fst
        = ["video_id", "transcript", "summary", "error"] :=
  ⟨(C7_persisted_record ⟨"v", none, none, none, none⟩).2.2.2.1 'ñ' (by decide),
   (C7_persisted_record ⟨"v", none, none, none, none⟩).2.1⟩

/-- C8: saving twice under the same video identifier overwrites — the
file-system state after the second write equals the state after writing
only the second record, and the file then holds exactly the second
record's rendering. -/
theorem C8_overwrite (fs : FileSystem) (s1 s2 : VideoSummary)
    (h : s1.video_id = s2.video_id) :
    save_summary (save_summary fs s1) s2 = save_summary fs s2
    ∧ save_summary (save_summary fs s1) s2 (save_path s2)
        = some (render_summary_json s2) := by
  have hp : save_path s1 = save_path s2 := by rw [save_path, save_path, h]
  constructor
  · funext p
    by_cases hps : p = save_path s2
    · simp [save_summary, hps]
    · have h1 : p ≠ save_path s1 := by rw [hp]; exact hps
      simp [save_summary, hps, h1]
  · simp [save_summary]

theorem C8_overwrite_witness :
    save_summary (save_summary (fun _ => none)
        ⟨"id1", none, some "t1", some "s1", none⟩)
        ⟨"id1", none, some "t2", some "s2", none⟩
      = save_summary (fun _ => none) ⟨"id1", none, some "t2", some "s2", none⟩ :=
  (C8_overwrite (fun _ => none) ⟨"id1", none, some "t1", some "s1", none⟩
    ⟨"id1", none, some "t2", some "s2", none⟩ rfl).1

/-- C9: whenever processing returns a record with a non-null error,
`_save_summary` was never invoked — even with save_to_file set — so no
file is written for that run. -/
theorem C9_no_save_on_failure {τ : Type}
    (fetch : String → List String → Option (List (TranscriptSegment τ)))
    (generate : String → Option String)
    (url : String) (save : Bool)
    (h : (process_video fetch generate url save).1.error ≠ none) :
    (process_video fetch generate url save).2.saveCalls = 0 := by
  revert h
  unfold process_video
  dsimp only
  split
  · intro _; rfl
  · split
    · intro _; rfl
    · split
      · intro _; rfl
      · intro h; simp at h

theorem C9_no_save_on_failure_witness :
    (process_video (fun _ _ => (none : Option (List (TranscriptSegment Nat))))
        (fun _ => none) "https://youtu.be/abc" true).2.saveCalls = 0 :=
  C9_no_save_on_failure _ _ _ _ (by decide)

/-- C10 counterexample: for a /watch URL with an empty v parameter the
extractor returns no identifier at all (blank query values are dropped
by the query parser), not the empty-string identifier the claim
predicts for that example. -/
theorem C10_counterexample :
    extract_video_id "https://www.youtube.com/watch?v=" = none
    ∧ (none : Option String) ≠ some "" := by
  decide

/-- C10 amended: the extractor can return an empty-string identifier
rather than none (the short-link URL youtu.be/ with an empty path does
so; a /watch URL with an empty v parameter instead yields none), and
process_video classifies every empty-string identifier as an invalid
URL, returning a failed record whose video_id is the empty string. -/
theorem C10_amended :
    extract_video_id "https://youtu.be/" = some ""
    ∧ extract_video_id "https://www.youtube.com/watch?v=" = none
    ∧ (∀ (τ : Type) (fetch : String → List String → Option (List (TranscriptSegment τ)))
        (generate : String → Option String) (url : String) (save : Bool),
        extract_video_id url = some "" →
        process_video fetch generate url save =
          ({ video_id := "", title := none, transcript := none, summary := none,
             error := some "Invalid YouTube URL" },
           { transcriptCalls := 0, generationCalls := 0, saveCalls := 0 })) := by
  refine ⟨by decide, by decide, ?_⟩
  intro τ fetch generate url save h
  unfold process_video
  rw [h]
  simp [truthy]

theorem C10_amended_witness :
    process_video (fun _ _ => (none : Option (List (TranscriptSegment Nat))))
        (fun _ => none) "https://youtu.be/" true =
      ({ video_id := "", title := none, transcript := none, summary := none,
         error := some "Invalid YouTube URL" },
       { transcriptCalls := 0, generationCalls := 0, saveCalls := 0 }) :=
  C10_amended.2.2 Nat _ _ "https://youtu.be/" true (by decide)
